import Mathlib

/-!
Verification development for the multi-provider OAuth client/token-lifecycle
engine of this repository (Next.js route handlers plus the two OAuth client
libraries).  Route handlers are embedded as pure functions: cookie state is
passed explicitly, and every network interaction (token endpoint, revocation
endpoint, identity endpoint) is an input parameter holding the response the
network would have produced, so that each handler's control flow over that
response is modelled exactly as written in the source.
-/

/-- Provider identifiers, from `src/lib/oauth-config.ts` (`type Provider`). -/
inductive Provider
  | supabase
  | github
  | clerk
  | google
deriving DecidableEq, Repr

/-- The closed provider list, from `VALID_PROVIDERS` in `src/lib/oauth-config.ts`. -/
def VALID_PROVIDERS : List String :=
  ["supabase", "github", "clerk", "google"]

/-- `isValidProvider` from `src/lib/oauth-config.ts`: membership in the closed set. -/
def isValidProvider (s : String) : Bool :=
  decide (s ∈ VALID_PROVIDERS)

/-- Parse a provider string into the enumeration; `none` exactly when the
string is not one of the four known identifiers. -/
def parseProvider (s : String) : Option Provider :=
  if s = "supabase" then some Provider.supabase
  else if s = "github" then some Provider.github
  else if s = "clerk" then some Provider.clerk
  else if s = "google" then some Provider.google
  else none

/-- Provider-specific configuration, from `getProviderConfig` in
`src/lib/oauth-config.ts`.  The source field `cookiePrefix` is represented by
`cookieNamespace` here; the environment-sourced `redirectUri` is omitted (it
never influences the control flow the claims are about). -/
structure ProviderConfig where
  usePKCE : Bool
  cookieNamespace : String
  scope : Option String
  userInfoEndpoint : Option String
deriving DecidableEq, Repr

/-- `getProviderConfig` from `src/lib/oauth-config.ts`. -/
def getProviderConfig : Provider → ProviderConfig
  | Provider.supabase =>
      ProviderConfig.mk true "supabase_" none
        (some "https://api.supabase.com/v1/oauth/userinfo")
  | Provider.github =>
      ProviderConfig.mk false "github_" (some "read:user read:org")
        (some "https://api.github.com/user")
  | Provider.clerk =>
      ProviderConfig.mk true "clerk_" (some "email profile") none
  | Provider.google =>
      ProviderConfig.mk true "google_" (some "openid email profile") none

/-- Modelled from the spec: the hand-rolled variant's configuration module
(the `getOAuthConfig` import of the hand-rolled routes) is not under `src/`;
per the spec's design notes its provider quirks (PKCE for supabase, none for
GitHub) and cookie namespaces coincide with `getProviderConfig` of
`src/lib/oauth-config.ts`, so it is modelled as that same mapping. -/
def getOAuthConfig (p : Provider) : ProviderConfig :=
  getProviderConfig p

/-- Cookie jar: an association list from cookie name to value. -/
abbrev CookieStore := List (String × String)

/-- Read a cookie (`request.cookies.get(name)?.value`). -/
def cookieGet (st : CookieStore) (n : String) : Option String :=
  match st with
  | [] => none
  | kv :: rest => if kv.1 = n then some kv.2 else cookieGet rest n

/-- Remove a cookie (`cookieStore.delete(name)` / `res.cookies.delete(name)`). -/
def cookieDelete (st : CookieStore) (n : String) : CookieStore :=
  match st with
  | [] => []
  | kv :: rest =>
      if kv.1 = n then cookieDelete rest n else kv :: cookieDelete rest n

/-- Write a cookie (`res.cookies.set(name, value, ...)`). -/
def cookieSet (st : CookieStore) (n v : String) : CookieStore :=
  (n, v) :: cookieDelete st n

/-- A cookie mutation carried on a response (`res.cookies.set` / `.delete`).
`maxAge` is the `maxAge` option of `set` when one is given. -/
inductive CookieOp
  | setC (name value : String) (maxAge : Option Int)
  | delC (name : String)
deriving DecidableEq, Repr

/-- Net effect of one response cookie mutation on a browser cookie jar. -/
def applyOp (st : CookieStore) : CookieOp → CookieStore
  | CookieOp.setC n v _ => cookieSet st n v
  | CookieOp.delC n => cookieDelete st n

/-- Net effect of a response's cookie mutations, applied in order. -/
def applyOps (st : CookieStore) (ops : List CookieOp) : CookieStore :=
  ops.foldl applyOp st

/-- An HTTP response produced by a route handler: status, error body (the
`error` field of a `NextResponse.json` error, `none` on success/redirect),
and the cookie mutations it carries. -/
structure ApiResponse where
  status : Nat
  errMsg : Option String
  cookieOps : List CookieOp
deriving DecidableEq, Repr

/-- A JavaScript value as it appears in a provider's JSON identity payload
(flat values suffice for the normalizer's field accesses). -/
inductive JsValue
  | str (s : String)
  | num (n : Int)
  | boolV (b : Bool)
  | nullV
  | undef
deriving DecidableEq, Repr

/-- A JSON object payload: association list of fields. -/
abbrev JsObj := List (String × JsValue)

/-- Field access `data.k`: `undefined` when the field is missing. -/
def jsLookup (d : JsObj) (k : String) : JsValue :=
  match d with
  | [] => JsValue.undef
  | kv :: rest => if kv.1 = k then kv.2 else jsLookup rest k

/-- The `getString` helper of `normalizeUserInfo`:
`typeof value === "string" ? value : undefined`. -/
def getString : JsValue → Option String
  | JsValue.str s => some s
  | _ => none

/-- JavaScript truthiness of a value. -/
def jsTruthy : JsValue → Bool
  | JsValue.str s => s ≠ ""
  | JsValue.num n => n ≠ 0
  | JsValue.boolV b => b
  | JsValue.nullV => false
  | JsValue.undef => false

/-- JavaScript `a || b` on values. -/
def jsOrValue (a b : JsValue) : JsValue :=
  if jsTruthy a then a else b

/-- JavaScript `String(v)` coercion. -/
def jsToString : JsValue → String
  | JsValue.str s => s
  | JsValue.num n => toString n
  | JsValue.boolV true => "true"
  | JsValue.boolV false => "false"
  | JsValue.nullV => "null"
  | JsValue.undef => "undefined"

/-- JavaScript `a || b` where `a b : string | undefined`
(`undefined` and `""` are falsy). -/
def jsOrStr (a b : Option String) : Option String :=
  match a with
  | some s => if s = "" then b else some s
  | none => b

/-- JavaScript `a || d` landing on a definite string default. -/
def jsOrStrD (a : Option String) (d : String) : String :=
  match a with
  | some s => if s = "" then d else s
  | none => d

/-- JavaScript truthiness of a `string | undefined` (used for
`if (tokenData.refresh_token)`). -/
def strTruthy : Option String → Bool
  | some s => s ≠ ""
  | none => false

/-- JavaScript `a || d` on an optional number (`0` is falsy). -/
def jsOrInt (a : Option Int) (d : Int) : Int :=
  match a with
  | some n => if n = 0 then d else n
  | none => d

/-- JavaScript `a ?? d` on an optional number (only absence defaults). -/
def coalesceInt (a : Option Int) (d : Int) : Int :=
  a.getD d

/-- The normalized identity record (`UserInfo` of `lib/oauth-client`). -/
structure UserInfo where
  id : String
  email : Option String
  name : Option String
  username : Option String
  avatar_url : Option String
  raw : JsObj
deriving DecidableEq, Repr

/-- `normalizeUserInfo` of `lib/oauth-client` (identical in both variants,
`src/unnamed/part_004` and `src/unnamed/part_005`): provider-specific field
precedence mapping a raw payload to a `UserInfo`. -/
def normalizeUserInfo (p : Provider) (data : JsObj) : UserInfo :=
  match p with
  | Provider.supabase =>
      UserInfo.mk
        (jsOrStrD (jsOrStr (getString (jsLookup data "sub"))
                           (getString (jsLookup data "id"))) "")
        (getString (jsLookup data "email"))
        (getString (jsLookup data "name"))
        (jsOrStr (getString (jsLookup data "preferred_username"))
                 (getString (jsLookup data "username")))
        (jsOrStr (getString (jsLookup data "picture"))
                 (getString (jsLookup data "avatar_url")))
        data
  | Provider.github =>
      UserInfo.mk
        (jsToString (jsLookup data "id"))
        (getString (jsLookup data "email"))
        (getString (jsLookup data "name"))
        (getString (jsLookup data "login"))
        (getString (jsLookup data "avatar_url"))
        data
  | _ =>
      UserInfo.mk
        (jsToString (jsOrValue (jsOrValue (jsLookup data "id")
                                          (jsLookup data "sub"))
                               (JsValue.str "")))
        (getString (jsLookup data "email"))
        (getString (jsLookup data "name"))
        (jsOrStr (jsOrStr (getString (jsLookup data "username"))
                          (getString (jsLookup data "login")))
                 (getString (jsLookup data "preferred_username")))
        (jsOrStr (getString (jsLookup data "avatar_url"))
                 (getString (jsLookup data "picture")))
        data

/-- A token payload as stored/returned by the token endpoint
(`TokenInfo` / `RefreshTokenResponse` / `oauth.TokenEndpointResponse`). -/
structure TokenData where
  access_token : String
  token_type : String
  expires_in : Option Int
  refresh_token : Option String
  scope : Option String
deriving DecidableEq, Repr

/-- The token endpoint's HTTP response as seen by a handler: the status code
and, when the body parses as a token payload, that payload. -/
structure TokenHttpResponse where
  status : Nat
  body : Option TokenData
deriving DecidableEq, Repr

/-- Cookie mutations both callback handlers attach to the success redirect:
store the access token (with `maxAge` when the handler sets one), store the
refresh token when the response carries a truthy one, then clear the state
cookie and, under PKCE, the verifier cookie. -/
def callbackSuccessOps (ns : String) (usePK : Bool) (maxAge : Option Int)
    (td : TokenData) : List CookieOp :=
  [CookieOp.setC (ns ++ "access_token") td.access_token maxAge] ++
  (if strTruthy td.refresh_token then
    [CookieOp.setC (ns ++ "refresh_token") (td.refresh_token.getD "") none]
   else []) ++
  [CookieOp.delC (ns ++ "oauth_state")] ++
  (if usePK then [CookieOp.delC (ns ++ "code_verifier")] else [])

/-- The hand-rolled callback route recognizes exactly supabase and github;
for those two strings this is the corresponding provider. -/
def handrolledProviderOf (pv : String) : Provider :=
  if pv = "supabase" then Provider.supabase else Provider.github

/-- The hand-rolled callback handler (`GET`, second document of
`src/app/api/oauth/[provider]/userinfo/route.ts`).  `code`/`state` are the
query parameters, `reqCookies` the request cookies, `tokenResp` the token
endpoint's response to the exchange request.  `Except.error` models an
exception escaping the handler (the route has no try/catch): the body of a
2xx response that is not a parseable token payload. -/
def handrolledCallback (provider : String) (code state : Option String)
    (reqCookies : CookieStore) (tokenResp : TokenHttpResponse) :
    Except String ApiResponse :=
  if provider ≠ "supabase" ∧ provider ≠ "github" then
    Except.ok (ApiResponse.mk 400 (some "Invalid provider") [])
  else
    let cfg := getOAuthConfig (handrolledProviderOf provider)
    match code, state with
    | some _, some s =>
        (match cookieGet reqCookies (cfg.cookieNamespace ++ "oauth_state") with
         | none => Except.ok (ApiResponse.mk 400 (some "Invalid state") [])
         | some stored =>
             if s ≠ stored then
               Except.ok (ApiResponse.mk 400 (some "Invalid state") [])
             else if cfg.usePKCE &&
                 (cookieGet reqCookies (cfg.cookieNamespace ++ "code_verifier")).isNone then
               Except.ok (ApiResponse.mk 400 (some "Missing code verifier") [])
             else if 200 ≤ tokenResp.status ∧ tokenResp.status ≤ 299 then
               match tokenResp.body with
               | none => Except.error "token response body did not parse"
               | some td =>
                   Except.ok (ApiResponse.mk 307 none
                     (callbackSuccessOps cfg.cookieNamespace cfg.usePKCE none td))
             else
               Except.ok
                 (ApiResponse.mk 400 (some "Failed to exchange code for token") []))
    | _, _ => Except.ok (ApiResponse.mk 400 (some "Missing code or state") [])

/-- The authorization-response query parameters of the library-based
callback route. -/
structure AuthParams where
  code : Option String
  state : Option String
  errorParam : Option String
deriving DecidableEq, Repr

/-- Modelled from the external library `oauth4webapi`:
`validateAuthResponse` returns the parameters when the `error` parameter is
absent and the `state` parameter equals the expected state, and throws
otherwise. -/
def validateAuthResponseOk (params : AuthParams) (expectedState : String) : Bool :=
  params.errorParam.isNone && (params.state == some expectedState)

/-- Modelled from the external library `oauth4webapi`:
`processAuthorizationCodeResponse` accepts exactly a 200-status response
whose body parses as a token payload, and throws otherwise (which is why the
route rewrites supabase's 201 to 200 beforehand). -/
def processAuthorizationCodeResponse (resp : TokenHttpResponse) :
    Except String TokenData :=
  if resp.status ≠ 200 then Except.error "unexpected response status"
  else
    match resp.body with
    | some td => Except.ok td
    | none => Except.error "response body did not parse"

/-- The library-based callback handler (`GET` of
`src/app/api/oauth/[provider]/callback/route.ts`).  The token endpoint's
response is the `tokenResp` input; the supabase-only 201-to-200 rewrite and
the try/catch around the exchange (returning a 500) are as in the source. -/
def libCallback (provider : String) (query : AuthParams)
    (reqCookies : CookieStore) (tokenResp : TokenHttpResponse) : ApiResponse :=
  match parseProvider provider with
  | none => ApiResponse.mk 400 (some "Invalid provider") []
  | some p =>
    let cfg := getProviderConfig p
    match cookieGet reqCookies (cfg.cookieNamespace ++ "oauth_state") with
    | none => ApiResponse.mk 400 (some "Missing stored state") []
    | some storedState =>
        if !(validateAuthResponseOk query storedState) then
          ApiResponse.mk 400 (some "Authorization validation failed") []
        else
          match query.code with
          | none => ApiResponse.mk 400 (some "Missing authorization code") []
          | some _ =>
              if cfg.usePKCE &&
                  (cookieGet reqCookies (cfg.cookieNamespace ++ "code_verifier")).isNone then
                ApiResponse.mk 400 (some "Missing code verifier") []
              else
                let resp1 :=
                  if p = Provider.supabase ∧ tokenResp.status = 201 then
                    TokenHttpResponse.mk 200 tokenResp.body
                  else tokenResp
                match processAuthorizationCodeResponse resp1 with
                | Except.error _ =>
                    ApiResponse.mk 500 (some "Failed to exchange code for token") []
                | Except.ok td =>
                    ApiResponse.mk 307 none
                      (callbackSuccessOps cfg.cookieNamespace cfg.usePKCE
                        (some (coalesceInt td.expires_in 3600)) td)

/-- The library-based disconnect handler (`POST` of
`src/app/api/disconnect/route.ts`).  `revocationErr` is whether
`processRevocationResponse` reported a provider revocation error.
`Except.error` models the exception `getProviderConfig` throws on an
unrecognized provider (the handler performs no validation of its own). -/
def disconnectHandler (provider : String) (reqCookies : CookieStore)
    (revocationErr : Bool) : Except String ApiResponse :=
  match parseProvider provider with
  | none => Except.error ("Unsupported provider: " ++ provider)
  | some p =>
    let cfg := getProviderConfig p
    match cookieGet reqCookies (cfg.cookieNamespace ++ "access_token") with
    | none =>
        Except.ok (ApiResponse.mk 400 (some "No access token found for provider") [])
    | some _ =>
        if revocationErr then
          Except.ok (ApiResponse.mk 500 (some "Failed to revoke token") [])
        else
          Except.ok (ApiResponse.mk 200 none
            [CookieOp.delC (cfg.cookieNamespace ++ "access_token"),
             CookieOp.delC (cfg.cookieNamespace ++ "refresh_token")])

/-- The simple disconnect handler (`POST`, third document of
`src/app/api/oauth/[provider]/authorize/route.ts`): deletes the two supabase
token cookies for "supabase", only the github access-token cookie for
"github", nothing otherwise, and always answers success. -/
def simpleDisconnect (provider : String) (store : CookieStore) :
    CookieStore × ApiResponse :=
  let store1 :=
    if provider = "supabase" then
      cookieDelete (cookieDelete store "supabase_access_token")
        "supabase_refresh_token"
    else if provider = "github" then
      cookieDelete store "github_access_token"
    else store
  (store1, ApiResponse.mk 200 none [])

/-- Cookie mutations the refresh route attaches on success: store the new
access token with `maxAge` `expires_in || 3600`, and the new refresh token
when the response carries a truthy one. -/
def refreshSuccessOps (ns : String) (maxAge : Int) (td : TokenData) :
    List CookieOp :=
  [CookieOp.setC (ns ++ "access_token") td.access_token (some maxAge)] ++
  (if strTruthy td.refresh_token then
    [CookieOp.setC (ns ++ "refresh_token") (td.refresh_token.getD "") none]
   else [])

/-- The refresh handler (`POST` of `src/unnamed/part_000`).
`refreshResult` is the outcome of `OAuthClient.refreshAccessToken`
(`Except.error` when it threw, which the route's try/catch turns into a
500). -/
def refreshHandler (provider : String) (reqCookies : CookieStore)
    (refreshResult : Except String TokenData) : ApiResponse :=
  match parseProvider provider with
  | none => ApiResponse.mk 400 (some "Invalid provider") []
  | some p =>
    let cfg := getProviderConfig p
    match cookieGet reqCookies (cfg.cookieNamespace ++ "refresh_token") with
    | none => ApiResponse.mk 401 (some "No refresh token available") []
    | some _ =>
        match refreshResult with
        | Except.error _ => ApiResponse.mk 500 (some "Failed to refresh token") []
        | Except.ok td =>
            ApiResponse.mk 200 none
              (refreshSuccessOps cfg.cookieNamespace (jsOrInt td.expires_in 3600) td)

/-- Result of the userinfo route: an error response or the normalized
identity returned as the JSON body. -/
inductive UserinfoResult
  | err (status : Nat) (msg : String)
  | info (u : UserInfo)
deriving DecidableEq, Repr

/-- The access-token cookie the userinfo route reads:
`provider === "supabase" ? "supabase_access_token" : "github_access_token"`. -/
def userinfoAccessCookie (provider : String) : String :=
  if provider = "supabase" then "supabase_access_token"
  else "github_access_token"

/-- The userinfo handler (`GET`, first document of
`src/app/api/oauth/[provider]/userinfo/route.ts`).  `fetchResult` is the raw
identity payload the provider's endpoint returned (`Except.error` when the
fetch threw, turned into a 500 by the route's try/catch); a successful fetch
is normalized through `normalizeUserInfo`. -/
def userinfoHandler (provider : String) (reqCookies : CookieStore)
    (fetchResult : Except String JsObj) : UserinfoResult :=
  match parseProvider provider with
  | none => UserinfoResult.err 400 "Invalid provider"
  | some p =>
    match cookieGet reqCookies (userinfoAccessCookie provider) with
    | none => UserinfoResult.err 401 "Not authenticated with this provider"
    | some _ =>
        match fetchResult with
        | Except.error _ => UserinfoResult.err 500 "Failed to fetch user information"
        | Except.ok data => UserinfoResult.info (normalizeUserInfo p data)

/-- Environment-sourced values of the authorize route. -/
structure AuthorizeEnv where
  clientId : String
  redirectUri : String
deriving DecidableEq, Repr

/-- Result of the authorize route: a 400 for an unknown provider, or a
redirect carrying the authorization-URL query and the attempt cookies. -/
inductive AuthorizeResult
  | invalid (status : Nat) (msg : String)
  | redirect (query : List (String × String)) (cookieOps : List CookieOp)
deriving DecidableEq, Repr

/-- The library-based authorize handler (`GET`, first document of
`src/app/api/oauth/[provider]/authorize/route.ts`).  `state`,
`codeVerifier` and `codeChallenge` stand for the freshly generated random
artifacts. -/
def authorizeHandler (provider : String) (env : AuthorizeEnv)
    (state codeVerifier codeChallenge : String) : AuthorizeResult :=
  match parseProvider provider with
  | none => AuthorizeResult.invalid 400 "Invalid provider"
  | some p =>
    let cfg := getProviderConfig p
    AuthorizeResult.redirect
      ([("client_id", env.clientId), ("redirect_uri", env.redirectUri),
        ("response_type", "code"), ("state", state)] ++
       (match cfg.scope with
        | some sc => [("scope", sc)]
        | none => []) ++
       (if cfg.usePKCE then
         [("code_challenge", codeChallenge), ("code_challenge_method", "S256")]
        else []))
      ([CookieOp.setC (cfg.cookieNamespace ++ "oauth_state") state none] ++
       (if cfg.usePKCE then
         [CookieOp.setC (cfg.cookieNamespace ++ "code_verifier") codeVerifier none]
        else []))

/-!  General lemmas about the embedding, shared by the claim theorems. -/

theorem isValidProvider_iff_parse (s : String) :
    isValidProvider s = true ↔ (parseProvider s).isSome = true := by
  unfold isValidProvider VALID_PROVIDERS parseProvider
  by_cases h1 : s = "supabase" <;> by_cases h2 : s = "github" <;>
    by_cases h3 : s = "clerk" <;> by_cases h4 : s = "google" <;>
    simp [h1, h2, h3, h4]

theorem parseProvider_eq_none_of_invalid (s : String)
    (h : isValidProvider s = false) : parseProvider s = none := by
  cases hp : parseProvider s with
  | none => rfl
  | some p =>
    have hv : isValidProvider s = true := by
      rw [isValidProvider_iff_parse, hp]; rfl
    rw [h] at hv
    exact absurd hv (by simp)

theorem invalid_ne_supabase (s : String) (h : isValidProvider s = false) :
    s ≠ "supabase" := by
  intro hs
  rw [hs] at h
  exact absurd h (by decide)

theorem invalid_ne_github (s : String) (h : isValidProvider s = false) :
    s ≠ "github" := by
  intro hs
  rw [hs] at h
  exact absurd h (by decide)

theorem cookieGet_delete_same (st : CookieStore) (n : String) :
    cookieGet (cookieDelete st n) n = none := by
  induction st with
  | nil => rfl
  | cons kv rest ih =>
    unfold cookieDelete
    by_cases h : kv.1 = n
    · simp [h, ih]
    · simp [cookieGet, h, ih]

theorem cookieGet_delete_other (st : CookieStore) (n k : String) (h : k ≠ n) :
    cookieGet (cookieDelete st n) k = cookieGet st k := by
  have hnk : ¬ (n = k) := fun hk => h hk.symm
  induction st with
  | nil => rfl
  | cons kv rest ih =>
    by_cases h1 : kv.1 = n
    · simp [cookieDelete, cookieGet, h1, hnk, ih]
    · by_cases h2 : kv.1 = k
      · simp [cookieDelete, cookieGet, h1, h2, h, ih]
      · simp [cookieDelete, cookieGet, h1, h2, ih]

theorem cookieGet_set_same (st : CookieStore) (n v : String) :
    cookieGet (cookieSet st n v) n = some v := by
  simp [cookieSet, cookieGet]

theorem cookieGet_set_other (st : CookieStore) (n v k : String) (h : k ≠ n) :
    cookieGet (cookieSet st n v) k = cookieGet st k := by
  have hne : n ≠ k := fun hk => h hk.symm
  simp [cookieSet, cookieGet, hne, cookieGet_delete_other st n k h]

theorem applyOps_refreshSuccess_access (ck : CookieStore) (ns : String)
    (ma : Int) (td : TokenData)
    (hne : (ns ++ "refresh_token") ≠ (ns ++ "access_token")) :
    cookieGet (applyOps ck (refreshSuccessOps ns ma td)) (ns ++ "access_token")
      = some td.access_token := by
  unfold refreshSuccessOps applyOps
  cases h : strTruthy td.refresh_token
  · simp [h, applyOp, cookieGet_set_same]
  · simp [h, applyOp]
    rw [cookieGet_set_other _ _ _ _ (fun he => hne he.symm)]
    exact cookieGet_set_same ck (ns ++ "access_token") td.access_token

theorem applyOps_refreshSuccess_refresh_kept (ck : CookieStore) (ns : String)
    (ma : Int) (td : TokenData)
    (h : td.refresh_token = none)
    (hne : (ns ++ "access_token") ≠ (ns ++ "refresh_token")) :
    cookieGet (applyOps ck (refreshSuccessOps ns ma td)) (ns ++ "refresh_token")
      = cookieGet ck (ns ++ "refresh_token") := by
  unfold refreshSuccessOps applyOps
  simp [h, strTruthy, applyOp]
  exact cookieGet_set_other ck (ns ++ "access_token") td.access_token
    (ns ++ "refresh_token") (fun he => hne he.symm)

theorem applyOps_refreshSuccess_refresh_new (ck : CookieStore) (ns : String)
    (ma : Int) (td : TokenData) (newRt : String)
    (h : td.refresh_token = some newRt) (hne : newRt ≠ "") :
    cookieGet (applyOps ck (refreshSuccessOps ns ma td)) (ns ++ "refresh_token")
      = some newRt := by
  unfold refreshSuccessOps applyOps
  simp [h, strTruthy, hne, applyOp]
  exact cookieGet_set_same _ (ns ++ "refresh_token") newRt

/-!  Claim theorems. -/

/-- C1 counterexample: a callback with the `code` parameter absent and a
mismatching `state`, against the hand-rolled callback handler, yields the
malformed-callback error "Missing code or state" (the handler checks
code/state presence before comparing states), not the state-mismatch error
"Invalid state" — refuting the claim's "StateMismatch-class ... regardless
of whether the code parameter is present". -/
theorem c1_counterexample :
    handrolledCallback "supabase" none (some "s1")
      [("supabase_oauth_state", "other")] (TokenHttpResponse.mk 200 none)
      = Except.ok (ApiResponse.mk 400 (some "Missing code or state") []) ∧
    (some "Missing code or state" : Option String) ≠ some "Invalid state" :=
  ⟨rfl, by decide⟩

/-- C2 counterexample: a failing callback (state mismatch) returns its 400
with an empty cookie-mutation list, so the stored AuthorizationAttempt
(state cookie, verifier cookie) is NOT discarded: it is still readable after
the response's cookie operations are applied. -/
theorem c2_counterexample :
    handrolledCallback "supabase" (some "abc") (some "s1")
      [("supabase_oauth_state", "stored"), ("supabase_code_verifier", "v1")]
      (TokenHttpResponse.mk 200 none)
      = Except.ok (ApiResponse.mk 400 (some "Invalid state") []) ∧
    cookieGet (applyOps
        [("supabase_oauth_state", "stored"), ("supabase_code_verifier", "v1")]
        (ApiResponse.mk 400 (some "Invalid state") []).cookieOps)
      "supabase_oauth_state" = some "stored" :=
  ⟨rfl, rfl⟩

/-- C3 counterexample: on a provider-reported revocation error the
disconnect handler returns the 500 error with no cookie deletions, so the
local access token is still present afterwards — local deletion does NOT
proceed. -/
theorem c3_counterexample :
    disconnectHandler "supabase"
      [("supabase_access_token", "at"), ("supabase_refresh_token", "rt")] true
      = Except.ok (ApiResponse.mk 500 (some "Failed to revoke token") []) ∧
    cookieGet (applyOps
        [("supabase_access_token", "at"), ("supabase_refresh_token", "rt")]
        (ApiResponse.mk 500 (some "Failed to revoke token") []).cookieOps)
      "supabase_access_token" = some "at" :=
  ⟨rfl, rfl⟩

/-- C4 counterexample: the library-based disconnect handler performs no
provider validation; an unrecognized identifier makes `getProviderConfig`
throw (an unhandled exception, hence an internal error), not a structured
400 client error. -/
theorem c4_counterexample :
    disconnectHandler "notaprovider" [("notaprovider_access_token", "at")] false
      = Except.error "Unsupported provider: notaprovider" ∧
    isValidProvider "notaprovider" = false :=
  ⟨rfl, by decide⟩

/-- C6 counterexample: a 201 response with a parseable token payload fails
the library-based exchange for github (only supabase's 201 is normalized to
200), while the same body with status 200 succeeds — refuting "for every
provider, ... any 2xx with a parseable token payload is success". -/
theorem c6_counterexample :
    libCallback "github" (AuthParams.mk (some "abc") (some "s1") none)
      [("github_oauth_state", "s1")]
      (TokenHttpResponse.mk 201
        (some (TokenData.mk "tok" "bearer" (some 3600) none none)))
      = ApiResponse.mk 500 (some "Failed to exchange code for token") [] ∧
    libCallback "github" (AuthParams.mk (some "abc") (some "s1") none)
      [("github_oauth_state", "s1")]
      (TokenHttpResponse.mk 200
        (some (TokenData.mk "tok" "bearer" (some 3600) none none)))
      = ApiResponse.mk 307 none
          (callbackSuccessOps "github_" false (some 3600)
            (TokenData.mk "tok" "bearer" (some 3600) none none)) :=
  ⟨rfl, rfl⟩

/-- C7 (confirmed): the normalizer maps the GitHub-shaped payload
`id: 123, login: "octo", avatar_url: "http://x"` to id "123" (the numeric
id stringified), username "octo", avatar_url "http://x", and the
OIDC-shaped payload `sub: "u1", preferred_username: "p",
picture: "http://y"` to id "u1", username "p", avatar_url "http://y", in
both cases preserving the original payload in `raw`. -/
theorem c7_normalization :
    normalizeUserInfo Provider.github
      [("id", JsValue.num 123), ("login", JsValue.str "octo"),
       ("avatar_url", JsValue.str "http://x")]
      = UserInfo.mk "123" none none (some "octo") (some "http://x")
          [("id", JsValue.num 123), ("login", JsValue.str "octo"),
           ("avatar_url", JsValue.str "http://x")] ∧
    normalizeUserInfo Provider.supabase
      [("sub", JsValue.str "u1"), ("preferred_username", JsValue.str "p"),
       ("picture", JsValue.str "http://y")]
      = UserInfo.mk "u1" none none (some "p") (some "http://y")
          [("sub", JsValue.str "u1"), ("preferred_username", JsValue.str "p"),
           ("picture", JsValue.str "http://y")] :=
  ⟨rfl, rfl⟩

/-- C8 counterexample: the normalizer accepts the empty payload for
supabase and produces an empty `id`, refuting "`id` is ... never empty". -/
theorem c8_counterexample :
    (normalizeUserInfo Provider.supabase []).id = "" :=
  rfl

/-- C10 counterexample: a refresh response carrying `expires_in: 0` is
stored with `maxAge` 3600, not 0 — the refresh route computes
`expires_in || 3600`, which treats the present value 0 as absent. -/
theorem c10_counterexample :
    refreshHandler "supabase" [("supabase_refresh_token", "rt")]
      (Except.ok (TokenData.mk "tok" "bearer" (some 0) none none))
      = ApiResponse.mk 200 none
          (refreshSuccessOps "supabase_" 3600
            (TokenData.mk "tok" "bearer" (some 0) none none)) ∧
    (3600 : Int) ≠ 0 :=
  ⟨rfl, by decide⟩

/-- C3 amended: local token deletion is NOT independent of the remote
outcome: on a provider-reported revocation error the disconnect handler
returns the RevocationFailed error (500) with no cookie deletion, and only
a successful remote revocation deletes the locally stored access-token and
refresh-token entries. -/
theorem c3_amended (pv : String) (p : Provider) (ck : CookieStore)
    (hp : parseProvider pv = some p)
    (hat : (cookieGet ck
        ((getProviderConfig p).cookieNamespace ++ "access_token")).isSome = true) :
    disconnectHandler pv ck true
      = Except.ok (ApiResponse.mk 500 (some "Failed to revoke token") []) ∧
    disconnectHandler pv ck false
      = Except.ok (ApiResponse.mk 200 none
          [CookieOp.delC ((getProviderConfig p).cookieNamespace ++ "access_token"),
           CookieOp.delC ((getProviderConfig p).cookieNamespace ++ "refresh_token")]) := by
  obtain ⟨at0, hat0⟩ := Option.isSome_iff_exists.mp hat
  constructor <;> simp [disconnectHandler, hp, hat0]

/-- C3 amended witness at a concrete store. -/
theorem c3_amended_witness :
    disconnectHandler "supabase" [("supabase_access_token", "at")] true
      = Except.ok (ApiResponse.mk 500 (some "Failed to revoke token") []) :=
  (c3_amended "supabase" Provider.supabase [("supabase_access_token", "at")]
    rfl (by decide)).1

/-- C4 amended: authorize-start, both callback handlers, refresh, and
identity-fetch validate the provider identifier first and answer a 400
"Invalid provider" on an unrecognized one; but the library-based disconnect
handler performs no validation and throws (internal error), and the simple
disconnect accepts any provider string, reporting success. -/
theorem c4_amended (s : String) (hs : isValidProvider s = false)
    (env : AuthorizeEnv) (st cv cc : String) (q : AuthParams)
    (ck : CookieStore) (st2 : CookieStore) (resp : TokenHttpResponse)
    (rr : Except String TokenData) (fr : Except String JsObj) (re : Bool)
    (code state : Option String) :
    authorizeHandler s env st cv cc = AuthorizeResult.invalid 400 "Invalid provider" ∧
    libCallback s q ck resp = ApiResponse.mk 400 (some "Invalid provider") [] ∧
    handrolledCallback s code state ck resp
      = Except.ok (ApiResponse.mk 400 (some "Invalid provider") []) ∧
    refreshHandler s ck rr = ApiResponse.mk 400 (some "Invalid provider") [] ∧
    userinfoHandler s ck fr = UserinfoResult.err 400 "Invalid provider" ∧
    disconnectHandler s ck re = Except.error ("Unsupported provider: " ++ s) ∧
    simpleDisconnect s st2 = (st2, ApiResponse.mk 200 none []) := by
  have hp := parseProvider_eq_none_of_invalid s hs
  have h1 := invalid_ne_supabase s hs
  have h2 := invalid_ne_github s hs
  refine ⟨?_, ?_, ?_, ?_, ?_, ?_, ?_⟩ <;>
    simp [authorizeHandler, libCallback, handrolledCallback, refreshHandler,
      userinfoHandler, disconnectHandler, simpleDisconnect, hp, h1, h2]

/-- C4 amended witness at the concrete unknown identifier "evil". -/
theorem c4_amended_witness :
    disconnectHandler "evil" [] false
      = Except.error ("Unsupported provider: " ++ "evil") :=
  (c4_amended "evil" (by decide) (AuthorizeEnv.mk "cid" "ru") "st" "cv" "cc"
    (AuthParams.mk none none none) [] [] (TokenHttpResponse.mk 200 none)
    (Except.error "e") (Except.error "e") false none none).2.2.2.2.2.1

/-- C9 (confirmed): the simple disconnect handler always answers success;
for "supabase" it deletes exactly the supabase access- and refresh-token
entries, for "github" exactly the github access-token entry, and for any
other provider string it leaves the store untouched while still reporting
success. -/
theorem c9_simple_disconnect (pv : String) (st : CookieStore) :
    (simpleDisconnect pv st).2 = ApiResponse.mk 200 none [] ∧
    (pv = "supabase" →
      cookieGet (simpleDisconnect pv st).1 "supabase_access_token" = none ∧
      cookieGet (simpleDisconnect pv st).1 "supabase_refresh_token" = none ∧
      ∀ k, k ≠ "supabase_access_token" → k ≠ "supabase_refresh_token" →
        cookieGet (simpleDisconnect pv st).1 k = cookieGet st k) ∧
    (pv = "github" →
      cookieGet (simpleDisconnect pv st).1 "github_access_token" = none ∧
      ∀ k, k ≠ "github_access_token" →
        cookieGet (simpleDisconnect pv st).1 k = cookieGet st k) ∧
    (pv ≠ "supabase" → pv ≠ "github" → (simpleDisconnect pv st).1 = st) := by
  refine ⟨rfl, fun hpv => ?_, fun hpv => ?_, fun h1 h2 => ?_⟩
  · subst hpv
    have hd : (simpleDisconnect "supabase" st).1
        = cookieDelete (cookieDelete st "supabase_access_token")
            "supabase_refresh_token" := rfl
    refine ⟨?_, ?_, fun k hk1 hk2 => ?_⟩
    · rw [hd, cookieGet_delete_other _ _ _ (by decide)]
      exact cookieGet_delete_same st "supabase_access_token"
    · rw [hd]
      exact cookieGet_delete_same _ "supabase_refresh_token"
    · rw [hd, cookieGet_delete_other _ _ _ hk2]
      exact cookieGet_delete_other _ _ _ hk1
  · subst hpv
    have hd : (simpleDisconnect "github" st).1
        = cookieDelete st "github_access_token" := rfl
    refine ⟨?_, fun k hk => ?_⟩
    · rw [hd]
      exact cookieGet_delete_same st "github_access_token"
    · rw [hd]
      exact cookieGet_delete_other _ _ _ hk
  · simp [simpleDisconnect, h1, h2]

/-- C9 witness at a concrete supabase store. -/
theorem c9_simple_disconnect_witness :
    cookieGet (simpleDisconnect "supabase"
        [("supabase_access_token", "a"), ("other", "o")]).1
      "supabase_access_token" = none :=
  ((c9_simple_disconnect "supabase"
    [("supabase_access_token", "a"), ("other", "o")]).2.1 rfl).1

/-- C10 amended: when `expires_in` is absent both the exchange and the
refresh default the stored access-token lifetime to 3600; when it is
present the exchange uses the value as-is (`expires_in ?? 3600`), but the
refresh route computes `expires_in || 3600` and therefore also substitutes
3600 when the present value is 0. -/
theorem c10_amended (td : TokenData) (n : Int) :
    (td.expires_in = some n →
      refreshHandler "supabase" [("supabase_refresh_token", "rt")] (Except.ok td)
        = ApiResponse.mk 200 none
            (refreshSuccessOps "supabase_" (if n = 0 then 3600 else n) td)) ∧
    (td.expires_in = none →
      refreshHandler "supabase" [("supabase_refresh_token", "rt")] (Except.ok td)
        = ApiResponse.mk 200 none (refreshSuccessOps "supabase_" 3600 td)) ∧
    (td.expires_in = some n →
      libCallback "github" (AuthParams.mk (some "c") (some "s1") none)
          [("github_oauth_state", "s1")] (TokenHttpResponse.mk 200 (some td))
        = ApiResponse.mk 307 none (callbackSuccessOps "github_" false (some n) td)) ∧
    (td.expires_in = none →
      libCallback "github" (AuthParams.mk (some "c") (some "s1") none)
          [("github_oauth_state", "s1")] (TokenHttpResponse.mk 200 (some td))
        = ApiResponse.mk 307 none
            (callbackSuccessOps "github_" false (some 3600) td)) := by
  refine ⟨fun he => ?_, fun he => ?_, fun he => ?_, fun he => ?_⟩ <;>
    simp [refreshHandler, libCallback, parseProvider, getProviderConfig,
      cookieGet, validateAuthResponseOk, processAuthorizationCodeResponse,
      jsOrInt, coalesceInt, he]

/-- C10 amended witness at `expires_in = 0`. -/
theorem c10_amended_witness :
    refreshHandler "supabase" [("supabase_refresh_token", "rt")]
      (Except.ok (TokenData.mk "tok" "bearer" (some 0) none none))
      = ApiResponse.mk 200 none
          (refreshSuccessOps "supabase_" (if (0 : Int) = 0 then 3600 else 0)
            (TokenData.mk "tok" "bearer" (some 0) none none)) :=
  (c10_amended (TokenData.mk "tok" "bearer" (some 0) none none) 0).1 rfl

/-- C5 (confirmed): after a successful refresh, the new access token is
stored; when the response omits `refresh_token` the previously stored
refresh token is unchanged, and when it includes a (non-empty) new one the
stored token is replaced by it.  (The route's check is JavaScript
truthiness, so a degenerate empty-string `refresh_token` is treated as
absent; "includes a new refresh_token" is read as a non-empty token.) -/
theorem c5_refresh_frame (pv : String) (p : Provider) (ck : CookieStore)
    (td : TokenData) (oldRt : String)
    (hp : parseProvider pv = some p)
    (hrt : cookieGet ck
        ((getProviderConfig p).cookieNamespace ++ "refresh_token") = some oldRt) :
    cookieGet (applyOps ck (refreshHandler pv ck (Except.ok td)).cookieOps)
        ((getProviderConfig p).cookieNamespace ++ "access_token")
      = some td.access_token ∧
    (td.refresh_token = none →
      cookieGet (applyOps ck (refreshHandler pv ck (Except.ok td)).cookieOps)
          ((getProviderConfig p).cookieNamespace ++ "refresh_token")
        = some oldRt) ∧
    (∀ newRt, td.refresh_token = some newRt → newRt ≠ "" →
      cookieGet (applyOps ck (refreshHandler pv ck (Except.ok td)).cookieOps)
          ((getProviderConfig p).cookieNamespace ++ "refresh_token")
        = some newRt) := by
  have hops : (refreshHandler pv ck (Except.ok td)).cookieOps
      = refreshSuccessOps (getProviderConfig p).cookieNamespace
          (jsOrInt td.expires_in 3600) td := by
    simp [refreshHandler, hp, hrt]
  have hne1 : ((getProviderConfig p).cookieNamespace ++ "refresh_token")
      ≠ ((getProviderConfig p).cookieNamespace ++ "access_token") := by
    cases p <;> decide
  have hne2 : ((getProviderConfig p).cookieNamespace ++ "access_token")
      ≠ ((getProviderConfig p).cookieNamespace ++ "refresh_token") := by
    cases p <;> decide
  refine ⟨?_, fun h0 => ?_, fun newRt hsome hne => ?_⟩
  · rw [hops]
    exact applyOps_refreshSuccess_access ck _ _ td hne1
  · rw [hops, applyOps_refreshSuccess_refresh_kept ck _ _ td h0 hne2]
    exact hrt
  · rw [hops]
    exact applyOps_refreshSuccess_refresh_new ck _ _ td newRt hsome hne

/-- C5 witness: a refresh response without `refresh_token` leaves the
stored refresh token in place at a concrete store. -/
theorem c5_refresh_frame_witness :
    cookieGet (applyOps [("github_refresh_token", "old")]
        (refreshHandler "github" [("github_refresh_token", "old")]
          (Except.ok (TokenData.mk "tok" "bearer" none none none))).cookieOps)
        ((getProviderConfig Provider.github).cookieNamespace ++ "refresh_token")
      = some "old" :=
  (c5_refresh_frame "github" Provider.github [("github_refresh_token", "old")]
    (TokenData.mk "tok" "bearer" none none none) "old" rfl (by decide)).2.1 rfl

/-- C8 amended: the normalizer never rejects a payload and does not
guarantee a non-empty `id`: for supabase the id is empty exactly when the
payload holds neither a non-empty `sub` string nor a non-empty `id` string;
for github the id is the JavaScript stringification of the `id` field,
non-empty whenever that field is a non-empty string. -/
theorem c8_amended (d : JsObj) :
    ((normalizeUserInfo Provider.supabase d).id = "" ↔
      strTruthy (getString (jsLookup d "sub")) = false ∧
      strTruthy (getString (jsLookup d "id")) = false) ∧
    (∀ s, jsLookup d "id" = JsValue.str s → s ≠ "" →
      (normalizeUserInfo Provider.github d).id ≠ "") := by
  constructor
  · cases hg1 : getString (jsLookup d "sub") with
    | none =>
        cases hg2 : getString (jsLookup d "id") with
        | none =>
            simp [normalizeUserInfo, jsOrStr, jsOrStrD, strTruthy, hg1, hg2]
        | some s2 =>
            by_cases h2 : s2 = "" <;>
              simp [normalizeUserInfo, jsOrStr, jsOrStrD, strTruthy, hg1, hg2, h2]
    | some s1 =>
        by_cases h1 : s1 = ""
        · cases hg2 : getString (jsLookup d "id") with
          | none =>
              simp [normalizeUserInfo, jsOrStr, jsOrStrD, strTruthy, hg1, hg2, h1]
          | some s2 =>
              by_cases h2 : s2 = "" <;>
                simp [normalizeUserInfo, jsOrStr, jsOrStrD, strTruthy, hg1, hg2, h1, h2]
        · simp [normalizeUserInfo, jsOrStr, jsOrStrD, strTruthy, hg1, h1]
  · intro s hs hne
    simp only [normalizeUserInfo, jsToString, hs]
    exact hne

/-- C8 amended witness: a github payload whose `id` is the non-empty string
"u1" yields a non-empty normalized id, and the supabase emptiness
characterization at that payload. -/
theorem c8_amended_witness :
    ((normalizeUserInfo Provider.supabase [("id", JsValue.str "u1")]).id = "" ↔
      strTruthy (getString (jsLookup [("id", JsValue.str "u1")] "sub")) = false ∧
      strTruthy (getString (jsLookup [("id", JsValue.str "u1")] "id")) = false) ∧
    (normalizeUserInfo Provider.github [("id", JsValue.str "u1")]).id ≠ "" :=
  ⟨(c8_amended [("id", JsValue.str "u1")]).1,
   (c8_amended [("id", JsValue.str "u1")]).2 "u1" rfl (by decide)⟩

/-- C1 amended: when the callback carries both `code` and `state`, a missing
stored attempt or a state mismatch yields the StateMismatch-class 400 in
both handlers, independent of (and without consulting) the token endpoint's
response and with no cookie mutation; when `code` or `state` is missing the
hand-rolled handler instead returns the MalformedCallback 400 (the
library-based handler returns its stored-state-missing or
validation-failed 400 regardless of the code parameter). -/
theorem c1_amended (pv c s : String) (ck : CookieStore)
    (hpv : pv = "supabase" ∨ pv = "github")
    (hmis : cookieGet ck
        ((getOAuthConfig (handrolledProviderOf pv)).cookieNamespace ++ "oauth_state")
      ≠ some s) :
    (∀ resp, handrolledCallback pv (some c) (some s) ck resp
        = Except.ok (ApiResponse.mk 400 (some "Invalid state") [])) ∧
    (∀ q resp, q.state = some s →
        libCallback pv q ck resp
          = ApiResponse.mk 400 (some "Missing stored state") [] ∨
        libCallback pv q ck resp
          = ApiResponse.mk 400 (some "Authorization validation failed") []) := by
  have hne : ¬ (pv ≠ "supabase" ∧ pv ≠ "github") := by
    rcases hpv with h | h <;> simp [h]
  have hparse : parseProvider pv = some (handrolledProviderOf pv) := by
    rcases hpv with h | h <;> subst h <;> rfl
  constructor
  · intro resp
    cases hcg : cookieGet ck
        ((getOAuthConfig (handrolledProviderOf pv)).cookieNamespace ++ "oauth_state") with
    | none => simp [handrolledCallback, hne, hcg]
    | some t =>
        have hst : s ≠ t := by
          intro hs
          exact hmis (by rw [hcg, hs])
        simp [handrolledCallback, hne, hcg, hst]
  · intro q resp hq
    cases hcg : cookieGet ck
        ((getOAuthConfig (handrolledProviderOf pv)).cookieNamespace ++ "oauth_state") with
    | none =>
        left
        simp [libCallback, getOAuthConfig] at hcg ⊢
        simp [hparse, hcg]
    | some t =>
        right
        have hst : s ≠ t := by
          intro hs
          exact hmis (by rw [hcg, hs])
        have hv : validateAuthResponseOk q t = false := by
          simp [validateAuthResponseOk, hq, hst]
        simp [libCallback, getOAuthConfig] at hcg ⊢
        simp [hparse, hcg, hv]

/-- C1 amended witness: a concrete mismatching callback against the
hand-rolled handler. -/
theorem c1_amended_witness :
    handrolledCallback "supabase" (some "c0") (some "s1")
      [("supabase_oauth_state", "zz")] (TokenHttpResponse.mk 200 none)
      = Except.ok (ApiResponse.mk 400 (some "Invalid state") []) :=
  (c1_amended "supabase" "c0" "s1" [("supabase_oauth_state", "zz")]
    (Or.inl rfl) (by decide)).1 (TokenHttpResponse.mk 200 none)

/-- C2 amended: the pending AuthorizationAttempt cookies are discarded only
on the success path.  Every failing callback (malformed, state mismatch,
missing verifier, failed exchange), in both handlers, returns its error
with an empty cookie-mutation list — the stored state and code-verifier
secrets are left in place; only a successful exchange deletes the state
cookie. -/
theorem c2_amended (pv : String) (code state : Option String) (q : AuthParams)
    (ck : CookieStore) (resp : TokenHttpResponse) :
    (∀ r, handrolledCallback pv code state ck resp = Except.ok r →
      (r.errMsg.isSome = true → r.cookieOps = []) ∧
      (r.errMsg = none →
        CookieOp.delC ((getOAuthConfig (handrolledProviderOf pv)).cookieNamespace
            ++ "oauth_state") ∈ r.cookieOps)) ∧
    ((libCallback pv q ck resp).errMsg.isSome = true →
      (libCallback pv q ck resp).cookieOps = []) ∧
    ((libCallback pv q ck resp).errMsg = none →
      ∀ p, parseProvider pv = some p →
        CookieOp.delC ((getProviderConfig p).cookieNamespace ++ "oauth_state")
          ∈ (libCallback pv q ck resp).cookieOps) := by
  refine ⟨?_, ?_, ?_⟩
  · -- hand-rolled handler
    intro r h1
    by_cases hval : pv ≠ "supabase" ∧ pv ≠ "github"
    · have he : handrolledCallback pv code state ck resp
          = Except.ok (ApiResponse.mk 400 (some "Invalid provider") []) := by
        simp [handrolledCallback, hval]
      rw [he] at h1
      injection h1 with h
      subst h
      simp
    · cases code with
      | none =>
          have he : handrolledCallback pv none state ck resp
              = Except.ok (ApiResponse.mk 400 (some "Missing code or state") []) := by
            cases state <;> simp [handrolledCallback, hval]
          rw [he] at h1
          injection h1 with h
          subst h
          simp
      | some c =>
        cases state with
        | none =>
            have he : handrolledCallback pv (some c) none ck resp
                = Except.ok (ApiResponse.mk 400 (some "Missing code or state") []) := by
              simp [handrolledCallback, hval]
            rw [he] at h1
            injection h1 with h
            subst h
            simp
        | some s =>
          cases hcg : cookieGet ck
              ((getOAuthConfig (handrolledProviderOf pv)).cookieNamespace ++ "oauth_state") with
          | none =>
              have he : handrolledCallback pv (some c) (some s) ck resp
                  = Except.ok (ApiResponse.mk 400 (some "Invalid state") []) := by
                simp [handrolledCallback, hval, hcg]
              rw [he] at h1
              injection h1 with h
              subst h
              simp
          | some t =>
            by_cases hst : s = t
            · subst hst
              by_cases hpk : ((getOAuthConfig (handrolledProviderOf pv)).usePKCE &&
                  (cookieGet ck ((getOAuthConfig (handrolledProviderOf pv)).cookieNamespace
                      ++ "code_verifier")).isNone) = true
              · have he : handrolledCallback pv (some c) (some s) ck resp
                    = Except.ok (ApiResponse.mk 400 (some "Missing code verifier") []) := by
                  simp [handrolledCallback, hval, hcg, hpk]
                rw [he] at h1
                injection h1 with h
                subst h
                simp
              · by_cases hok : 200 ≤ resp.status ∧ resp.status ≤ 299
                · cases hb : resp.body with
                  | none =>
                      have he : handrolledCallback pv (some c) (some s) ck resp
                          = Except.error "token response body did not parse" := by
                        simp [handrolledCallback, hval, hcg, hpk, hok, hb]
                      rw [he] at h1
                      simp at h1
                  | some td =>
                      have he : handrolledCallback pv (some c) (some s) ck resp
                          = Except.ok (ApiResponse.mk 307 none
                              (callbackSuccessOps
                                (getOAuthConfig (handrolledProviderOf pv)).cookieNamespace
                                (getOAuthConfig (handrolledProviderOf pv)).usePKCE none td)) := by
                        simp [handrolledCallback, hval, hcg, hpk, hok, hb]
                      rw [he] at h1
                      injection h1 with h
                      subst h
                      simp [callbackSuccessOps]
                · have he : handrolledCallback pv (some c) (some s) ck resp
                      = Except.ok (ApiResponse.mk 400
                          (some "Failed to exchange code for token") []) := by
                    simp [handrolledCallback, hval, hcg, hpk, hok]
                  rw [he] at h1
                  injection h1 with h
                  subst h
                  simp
            · have he : handrolledCallback pv (some c) (some s) ck resp
                  = Except.ok (ApiResponse.mk 400 (some "Invalid state") []) := by
                simp [handrolledCallback, hval, hcg, hst]
              rw [he] at h1
              injection h1 with h
              subst h
              simp
  · -- library-based handler: failing results carry no cookie mutation
    intro hfail
    cases hp : parseProvider pv with
    | none => simp [libCallback, hp]
    | some p =>
      cases hcg : cookieGet ck
          ((getProviderConfig p).cookieNamespace ++ "oauth_state") with
      | none => simp [libCallback, hp, hcg]
      | some t =>
        by_cases hv : validateAuthResponseOk q t = true
        · cases hqc : q.code with
          | none => simp [libCallback, hp, hcg, hv, hqc]
          | some c =>
            by_cases hpk : ((getProviderConfig p).usePKCE &&
                (cookieGet ck ((getProviderConfig p).cookieNamespace
                    ++ "code_verifier")).isNone) = true
            · simp [libCallback, hp, hcg, hv, hqc, hpk]
            · cases hproc : processAuthorizationCodeResponse
                  (if p = Provider.supabase ∧ resp.status = 201 then
                    TokenHttpResponse.mk 200 resp.body
                  else resp) with
              | error e => simp [libCallback, hp, hcg, hv, hqc, hpk, hproc]
              | ok td =>
                  exfalso
                  rw [show libCallback pv q ck resp
                      = ApiResponse.mk 307 none
                          (callbackSuccessOps (getProviderConfig p).cookieNamespace
                            (getProviderConfig p).usePKCE
                            (some (coalesceInt td.expires_in 3600)) td) from by
                    simp [libCallback, hp, hcg, hv, hqc, hpk, hproc]] at hfail
                  simp at hfail
        · simp [libCallback, hp, hcg, hv]
  · -- library-based handler: success deletes the state cookie
    intro hsucc p hp
    cases hcg : cookieGet ck
        ((getProviderConfig p).cookieNamespace ++ "oauth_state") with
    | none =>
        rw [show libCallback pv q ck resp
            = ApiResponse.mk 400 (some "Missing stored state") [] from by
          simp [libCallback, hp, hcg]] at hsucc
        simp at hsucc
    | some t =>
      by_cases hv : validateAuthResponseOk q t = true
      · cases hqc : q.code with
        | none =>
            rw [show libCallback pv q ck resp
                = ApiResponse.mk 400 (some "Missing authorization code") [] from by
              simp [libCallback, hp, hcg, hv, hqc]] at hsucc
            simp at hsucc
        | some c =>
          by_cases hpk : ((getProviderConfig p).usePKCE &&
              (cookieGet ck ((getProviderConfig p).cookieNamespace
                  ++ "code_verifier")).isNone) = true
          · rw [show libCallback pv q ck resp
                = ApiResponse.mk 400 (some "Missing code verifier") [] from by
              simp [libCallback, hp, hcg, hv, hqc, hpk]] at hsucc
            simp at hsucc
          · cases hproc : processAuthorizationCodeResponse
                (if p = Provider.supabase ∧ resp.status = 201 then
                  TokenHttpResponse.mk 200 resp.body
                else resp) with
            | error e =>
                rw [show libCallback pv q ck resp
                    = ApiResponse.mk 500 (some "Failed to exchange code for token") [] from by
                  simp [libCallback, hp, hcg, hv, hqc, hpk, hproc]] at hsucc
                simp at hsucc
            | ok td =>
                rw [show libCallback pv q ck resp
                    = ApiResponse.mk 307 none
                        (callbackSuccessOps (getProviderConfig p).cookieNamespace
                          (getProviderConfig p).usePKCE
                          (some (coalesceInt td.expires_in 3600)) td) from by
                  simp [libCallback, hp, hcg, hv, hqc, hpk, hproc]]
                simp [callbackSuccessOps]
      · rw [show libCallback pv q ck resp
            = ApiResponse.mk 400 (some "Authorization validation failed") [] from by
          simp [libCallback, hp, hcg, hv]] at hsucc
        simp at hsucc

/-- C2 amended witness at a concrete failing (state-mismatch) callback. -/
theorem c2_amended_witness :
    (ApiResponse.mk 400 (some "Invalid state") ([] : List CookieOp)).cookieOps = [] :=
  ((c2_amended "supabase" (some "a") (some "s")
      (AuthParams.mk (some "a") (some "s") none)
      [("supabase_oauth_state", "t")] (TokenHttpResponse.mk 200 none)).1
    (ApiResponse.mk 400 (some "Invalid state") []) rfl).1 rfl

/-- C6 amended: the two exchange implementations differ.  The hand-rolled
exchange treats any 2xx response with a parseable token payload as success,
for every provider it accepts.  The library-based exchange succeeds only on
status 200, except that for supabase (the provider configured to tolerate
201) a 201 is rewritten to 200 and yields a success identical to the 200
case; any other 2xx status fails the library-based exchange, for supabase
and github alike. -/
theorem c6_amended (status : Nat) (td : TokenData)
    (h1 : 200 ≤ status) (h2 : status ≤ 299) :
    handrolledCallback "github" (some "c") (some "s1")
        [("github_oauth_state", "s1")] (TokenHttpResponse.mk status (some td))
      = Except.ok (ApiResponse.mk 307 none
          (callbackSuccessOps "github_" false none td)) ∧
    handrolledCallback "supabase" (some "c") (some "s1")
        [("supabase_oauth_state", "s1"), ("supabase_code_verifier", "v1")]
        (TokenHttpResponse.mk status (some td))
      = Except.ok (ApiResponse.mk 307 none
          (callbackSuccessOps "supabase_" true none td)) ∧
    (∀ q ck, libCallback "supabase" q ck (TokenHttpResponse.mk 201 (some td))
        = libCallback "supabase" q ck (TokenHttpResponse.mk 200 (some td))) ∧
    (status ≠ 200 → status ≠ 201 →
      libCallback "supabase" (AuthParams.mk (some "c") (some "s1") none)
          [("supabase_oauth_state", "s1"), ("supabase_code_verifier", "v1")]
          (TokenHttpResponse.mk status (some td))
        = ApiResponse.mk 500 (some "Failed to exchange code for token") []) ∧
    (status ≠ 200 →
      libCallback "github" (AuthParams.mk (some "c") (some "s1") none)
          [("github_oauth_state", "s1")] (TokenHttpResponse.mk status (some td))
        = ApiResponse.mk 500 (some "Failed to exchange code for token") []) := by
  refine ⟨?_, ?_, ?_, fun hn200 hn201 => ?_, fun hn200 => ?_⟩
  · simp [handrolledCallback, handrolledProviderOf, getOAuthConfig,
      getProviderConfig, cookieGet, h1, h2]
  · simp [handrolledCallback, handrolledProviderOf, getOAuthConfig,
      getProviderConfig, cookieGet, h1, h2]
  · intro q ck
    cases hcg : cookieGet ck
        ((getProviderConfig Provider.supabase).cookieNamespace ++ "oauth_state") with
    | none => simp [libCallback, parseProvider, hcg]
    | some t =>
      by_cases hv : validateAuthResponseOk q t = true
      · cases hqc : q.code with
        | none => simp [libCallback, parseProvider, hcg, hv, hqc]
        | some c =>
          by_cases hpk : ((getProviderConfig Provider.supabase).usePKCE &&
              (cookieGet ck ((getProviderConfig Provider.supabase).cookieNamespace
                  ++ "code_verifier")).isNone) = true
          · simp [libCallback, parseProvider, hcg, hv, hqc, hpk]
          · simp [libCallback, parseProvider, hcg, hv, hqc, hpk,
              processAuthorizationCodeResponse]
      · simp [libCallback, parseProvider, hcg, hv]
  · simp [libCallback, parseProvider, getProviderConfig, cookieGet,
      validateAuthResponseOk, processAuthorizationCodeResponse, hn200, hn201]
  · simp [libCallback, parseProvider, getProviderConfig, cookieGet,
      validateAuthResponseOk, processAuthorizationCodeResponse, hn200]

/-- C6 amended witness at status 201 (a 2xx accepted by the hand-rolled
exchange). -/
theorem c6_amended_witness :
    handrolledCallback "github" (some "c") (some "s1")
      [("github_oauth_state", "s1")]
      (TokenHttpResponse.mk 201 (some (TokenData.mk "t" "bearer" none none none)))
      = Except.ok (ApiResponse.mk 307 none
          (callbackSuccessOps "github_" false none
            (TokenData.mk "t" "bearer" none none none))) :=
  (c6_amended 201 (TokenData.mk "t" "bearer" none none none)
    (by decide) (by decide)).1
